import Mathlib

/-!
Verification of the NKB LIDAR edge service against its specification.

Shallow embedding, translated from the Python sources in src/backend:
measurement_evaluator.py (zone evaluator, product catalog, statistics),
mrs1000_parser.py (telegram framer and scan parser), modbus_server.py
(register publisher) and ethernetip_server.py (input assembly).

Python floats are modelled as exact rationals.  The one non-rational
operation, math.sqrt in outlier rejection, is rendered by comparing
squares: for std = sqrt var and a factor f, the source test
abs (d - mean) <= f * std is equivalent to 0 <= f and
(d - mean) ^ 2 <= f ^ 2 * var (for f < 0 the source test rejects every
point since std > 0.001 there, and so does the rendered predicate via
the 0 <= f conjunct); likewise std < 0.001 is equivalent to
var < 1 / 1000000.
-/

namespace NKB

/-- Measurement result status (measurement_evaluator.py, MeasurementResult). -/
inductive MeasurementResult
  | UNKNOWN
  | GOOD
  | BAD
  | NO_TARGET
  | ERROR
deriving DecidableEq, Repr

/-- Integer value of a result, as in the Python IntEnum. -/
def MeasurementResult.toNat : MeasurementResult → Nat
  | .UNKNOWN => 0
  | .GOOD => 1
  | .BAD => 2
  | .NO_TARGET => 3
  | .ERROR => 4

/-- One LIDAR scan point (mrs1000_parser.py, ScanPoint); only the fields
the pipeline reads are carried. -/
structure ScanPoint where
  distance : ℚ
  angle_h : ℚ
  angle_v : ℚ
  rssi : Nat
  layer : Nat
deriving DecidableEq, Repr

/-- A measurement zone (measurement_evaluator.py, MeasurementZone),
including its mutable result cache. -/
structure MeasurementZone where
  id : Int
  name : String
  enabled : Bool
  start_angle : ℚ
  end_angle : ℚ
  layers : List Nat
  expected_distance : ℚ
  tolerance_plus : ℚ
  tolerance_minus : ℚ
  min_valid_distance : ℚ
  max_valid_distance : ℚ
  min_points : Nat
  use_median : Bool
  outlier_rejection : Bool
  outlier_std_factor : ℚ
  last_measurement : ℚ
  last_result : MeasurementResult
  last_update_time : ℚ
  point_count : Nat
deriving DecidableEq, Repr

/-- A product configuration (measurement_evaluator.py, ProductConfig). -/
structure ProductConfig where
  id : Int
  name : String
  description : String
  enabled : Bool
  zones : List MeasurementZone
  last_result : MeasurementResult
  last_update_time : ℚ
deriving DecidableEq, Repr

/-- Evaluator state (measurement_evaluator.py, MeasurementEvaluator).
`products` is the Python dict keyed by product id, modelled as an
association list in insertion order (Python dicts preserve it).
`savedDoc` models the content of the persisted JSON document, i.e. the
(active_product_id, products) snapshot most recently written by
save_config; `none` means nothing has been written yet.  The model
assumes a config path is present and file I/O succeeds. -/
structure EvaluatorState where
  products : List (Int × ProductConfig)
  active_product_id : Option Int
  evaluation_count : Nat
  good_count : Nat
  bad_count : Nat
  savedDoc : Option (Option Int × List (Int × ProductConfig))
deriving DecidableEq, Repr

/-- Python dict lookup `d.get(k)`. -/
def dictGet (l : List (Int × ProductConfig)) (k : Int) : Option ProductConfig :=
  (l.find? (fun kv => kv.1 = k)).map (fun kv => kv.2)

/-- Python dict assignment `d[k] = v`: replaces in place (keeping the
key's position) when the key exists, appends otherwise. -/
def dictSet (l : List (Int × ProductConfig)) (k : Int) (v : ProductConfig) :
    List (Int × ProductConfig) :=
  if l.any (fun kv => kv.1 = k) then
    l.map (fun kv => if kv.1 = k then (k, v) else kv)
  else
    l ++ [(k, v)]

/-- MeasurementEvaluator.save_config: writes the
{active_product_id, products} document. -/
def save_config (st : EvaluatorState) : EvaluatorState :=
  { st with savedDoc := some (st.active_product_id, st.products) }

/-- MeasurementEvaluator.add_product. -/
def add_product (st : EvaluatorState) (p : ProductConfig) : EvaluatorState :=
  let products' := dictSet st.products p.id p
  let active' := if st.active_product_id = none then some p.id else st.active_product_id
  save_config { st with products := products', active_product_id := active' }

/-- MeasurementEvaluator.remove_product. -/
def remove_product (st : EvaluatorState) (product_id : Int) :
    Bool × EvaluatorState :=
  if st.products.any (fun kv => kv.1 = product_id) then
    let products' := st.products.filter (fun kv => ¬ kv.1 = product_id)
    let active' :=
      if st.active_product_id = some product_id then
        (products'.map Prod.fst).head?
      else st.active_product_id
    (true, save_config { st with products := products', active_product_id := active' })
  else
    (false, st)

/-- MeasurementEvaluator.set_active_product.  Note: the source sets the
in-memory id and returns; it does not call save_config. -/
def set_active_product (st : EvaluatorState) (product_id : Int) :
    Bool × EvaluatorState :=
  if st.products.any (fun kv => kv.1 = product_id) then
    (true, { st with active_product_id := some product_id })
  else
    (false, st)

/-- MeasurementEvaluator.reset_statistics. -/
def reset_statistics (st : EvaluatorState) : EvaluatorState :=
  { st with evaluation_count := 0, good_count := 0, bad_count := 0 }

/-- MeasurementEvaluator.get_active_product. -/
def get_active_product (st : EvaluatorState) : Option ProductConfig :=
  match st.active_product_id with
  | some i => dictGet st.products i
  | none => none

/-- MeasurementEvaluator._extract_zone_points: distances of the points
whose layer is selected, whose horizontal angle lies inside the zone
bounds and whose distance lies inside the valid-distance clip. -/
def extract_zone_points (points : List ScanPoint) (zone : MeasurementZone) :
    List ℚ :=
  ((points.filter (fun p =>
      p.layer ∈ zone.layers ∧
      ¬ (p.angle_h < zone.start_angle ∨ p.angle_h > zone.end_angle) ∧
      ¬ (p.distance < zone.min_valid_distance ∨ p.distance > zone.max_valid_distance))).map
    (fun p => p.distance))

/-- MeasurementEvaluator._reject_outliers.  mean and population variance
over the list; the source compares abs (d - mean) against
std_factor * sqrt variance and sqrt variance against 0.001, rendered
here by comparing squares (see the file comment). -/
def reject_outliers (distances : List ℚ) (std_factor : ℚ) : List ℚ :=
  if distances.length < 3 then distances
  else
    let mean := distances.sum / (distances.length : ℚ)
    let variance := (distances.map (fun d => (d - mean) ^ 2)).sum / (distances.length : ℚ)
    if variance < 1 / 1000000 then distances
    else distances.filter (fun d => 0 ≤ std_factor ∧ (d - mean) ^ 2 ≤ std_factor ^ 2 * variance)

/-- The measurement statistic of _evaluate_zone: lower-middle-average
median over the sorted distances, or the arithmetic mean. -/
def zone_statistic (zone : MeasurementZone) (distances : List ℚ) : ℚ :=
  if zone.use_median then
    let sorted := distances.insertionSort (fun a b => a ≤ b)
    let n := distances.length
    if n % 2 = 0 then (sorted.getD (n / 2 - 1) 0 + sorted.getD (n / 2) 0) / 2
    else sorted.getD (n / 2) 0
  else distances.sum / (distances.length : ℚ)

/-- Statistic computation and tolerance check, the tail of
MeasurementEvaluator._evaluate_zone after the filtering steps. -/
def evaluate_zone_statistic (zone : MeasurementZone) (distances : List ℚ) :
    MeasurementResult × ℚ :=
  let measurement := zone_statistic zone distances
  let lower_bound := zone.expected_distance - zone.tolerance_minus
  let upper_bound := zone.expected_distance + zone.tolerance_plus
  if lower_bound ≤ measurement ∧ measurement ≤ upper_bound then
    (MeasurementResult.GOOD, measurement)
  else
    (MeasurementResult.BAD, measurement)

/-- MeasurementEvaluator._evaluate_zone. -/
def evaluate_zone (zone : MeasurementZone) (distances : List ℚ) :
    MeasurementResult × ℚ :=
  if distances.length < zone.min_points then (MeasurementResult.NO_TARGET, 0)
  else if zone.outlier_rejection ∧ 3 < distances.length then
    let distances' := reject_outliers distances zone.outlier_std_factor
    if distances'.length < zone.min_points then (MeasurementResult.NO_TARGET, 0)
    else evaluate_zone_statistic zone distances'
  else evaluate_zone_statistic zone distances

/-- Per-zone update done inside the evaluate_scan loop: disabled zones
are skipped untouched, enabled zones get their result cache refreshed. -/
def evaluate_zone_in_scan (points : List ScanPoint) (now : ℚ)
    (zone : MeasurementZone) : MeasurementZone :=
  if zone.enabled then
    let zone_points := extract_zone_points points zone
    let rm := evaluate_zone zone zone_points
    { zone with
        point_count := zone_points.length
        last_result := rm.1
        last_measurement := rm.2
        last_update_time := now }
  else zone

/-- MeasurementEvaluator.evaluate_scan.  `now` stands for time.time().
Returns the updated state and the updated product (none when there is
no active product or it is disabled). -/
def evaluate_scan (st : EvaluatorState) (points : List ScanPoint) (now : ℚ) :
    EvaluatorState × Option ProductConfig :=
  match get_active_product st with
  | none => (st, none)
  | some product =>
    if product.enabled then
      let zones' := product.zones.map (evaluate_zone_in_scan points now)
      let all_good := zones'.all (fun z =>
        !z.enabled || decide (z.last_result = MeasurementResult.GOOD))
      let product' :=
        { product with
            zones := zones'
            last_result :=
              if all_good then MeasurementResult.GOOD else MeasurementResult.BAD
            last_update_time := now }
      let products' := st.products.map (fun kv =>
        if some kv.1 = st.active_product_id then (kv.1, product') else kv)
      ({ st with
          products := products'
          evaluation_count := st.evaluation_count + 1
          good_count := if all_good then st.good_count + 1 else st.good_count
          bad_count := if all_good then st.bad_count else st.bad_count + 1 },
       some product')
    else (st, none)

/-! ## Telegram framer and scan parser (mrs1000_parser.py) -/

/-- SOPAS start-of-telegram marker. -/
def STXbytes : List Nat := [2, 2, 2, 2]

/-- bytearray.find for the 4-byte STX pattern: index of the first
complete occurrence, none when absent. -/
def findSTX : List Nat → Option Nat
  | [] => none
  | b :: rest =>
    if (b :: rest).take 4 = STXbytes then some 0
    else (findSTX rest).map (· + 1)

/-- Big-endian 32-bit value of four bytes. -/
def be32 (b0 b1 b2 b3 : Nat) : Nat :=
  ((b0 * 256 + b1) * 256 + b2) * 256 + b3

/-- struct.unpack of a big-endian u16 at `off`; none when the slice is
too short (struct.error, caught by the caller). -/
def readU16 (data : List Nat) (off : Nat) : Option Nat :=
  if off + 2 ≤ data.length then
    some (data.getD off 0 * 256 + data.getD (off + 1) 0)
  else none

/-- struct.unpack of a big-endian u32 at `off`. -/
def readU32 (data : List Nat) (off : Nat) : Option Nat :=
  if off + 4 ≤ data.length then
    some (be32 (data.getD off 0) (data.getD (off + 1) 0)
      (data.getD (off + 2) 0) (data.getD (off + 3) 0))
  else none

/-- struct.unpack of a big-endian i32 at `off` (two's complement). -/
def readI32 (data : List Nat) (off : Nat) : Option Int :=
  (readU32 data off).map (fun n =>
    if n < 2 ^ 31 then (n : Int) else (n : Int) - 2 ^ 32)

/-- IEEE-754 binary32 value of a 32-bit word, as an exact rational.
Exponent 255 (infinities and NaNs) is mapped to 0; no claim exercises
a non-finite scale factor. -/
def decodeF32 (n : Nat) : ℚ :=
  let s : Nat := n / 2 ^ 31
  let e : Nat := n / 2 ^ 23 % 2 ^ 8
  let m : Nat := n % 2 ^ 23
  let sign : ℚ := if s = 1 then -1 else 1
  if e = 0 then sign * (m : ℚ) / 2 ^ 149
  else if e = 255 then 0
  else sign * ((2 ^ 23 + m : ℕ) : ℚ) * (2 : ℚ) ^ ((e : ℤ) - 150)

/-- struct.unpack of a big-endian f32 at `off`. -/
def readF32 (data : List Nat) (off : Nat) : Option ℚ :=
  (readU32 data off).map decodeF32

/-- Complete scan data (mrs1000_parser.py, ScanData). -/
structure ScanData where
  timestamp : Nat
  scan_number : Nat
  telegram_count : Nat
  device_status : Nat
  frequency : ℚ
  points : List ScanPoint
  start_angle : ℚ
  end_angle : ℚ
  angular_resolution : ℚ
deriving DecidableEq, Repr

/-- Vertical angles of the four layers (LAYER_ANGLES); the .get default
0.0 for other indices is kept. -/
def layerAngle (layer : Nat) : ℚ :=
  if layer = 0 then -(5 / 2)
  else if layer = 1 then -(833 / 1000)
  else if layer = 2 then 833 / 1000
  else if layer = 3 then 5 / 2
  else 0

/-- Distance-value loop of MRS1000Parser._parse_channel: reads up to
`count` big-endian u16 raw distances starting at `offset`, stopping
early when fewer than two bytes remain.  `i` is the running point
index used for the horizontal angle. -/
def parse_points (data : List Nat) (scale_factor scale_offset : ℚ)
    (start_angle angular_step angle_v : ℚ) (layer : Nat) :
    Nat → Nat → Nat → List ScanPoint × Nat
  | 0, _, offset => ([], offset)
  | n + 1, i, offset =>
    if offset + 2 > data.length then ([], offset)
    else
      let distance_raw := data.getD offset 0 * 256 + data.getD (offset + 1) 0
      let distance := ((distance_raw : ℚ) * scale_factor + scale_offset) / 1000
      let angle_h := start_angle + (i : ℚ) * angular_step
      let p : ScanPoint :=
        { distance := distance, angle_h := angle_h, angle_v := angle_v,
          rssi := 0, layer := layer }
      let rest := parse_points data scale_factor scale_offset start_angle
        angular_step angle_v layer n (i + 1) (offset + 2)
      (p :: rest.1, rest.2)

/-- MRS1000Parser._parse_channel.  Note the scan's angular-grid fields
are set unconditionally from this channel's header, whatever they held
before. -/
def parse_channel (data : List Nat) (offset : Nat) (s : ScanData)
    (channel_idx : Nat) : Option (Nat × ScanData) := do
  -- 5 content-type bytes, decoded with errors ignored: cannot fail
  let o := offset + 5
  let scale_factor ← readF32 data o
  let scale_offset ← readF32 data (o + 4)
  let start_angle_raw ← readI32 data (o + 8)
  let start_angle := (start_angle_raw : ℚ) / 10000
  let step_raw ← readU16 data (o + 12)
  let angular_step := (step_raw : ℚ) / 10000
  let num_points ← readU16 data (o + 14)
  let s1 : ScanData :=
    { s with
        start_angle := start_angle
        angular_resolution := angular_step
        end_angle := start_angle + ((num_points : ℚ) - 1) * angular_step }
  let layer := channel_idx % 4
  let pts := parse_points data scale_factor scale_offset start_angle
    angular_step (layerAngle layer) layer num_points 0 (o + 16)
  pure (pts.2, { s1 with points := s1.points ++ pts.1 })

/-- Replace the rssi of the i-th point belonging to `layer` (the Python
code mutates the aliased element of the layer's point list in place). -/
def update_nth_layer_point (layer i r : Nat) :
    List ScanPoint → List ScanPoint
  | [] => []
  | p :: ps =>
    if p.layer = layer then
      match i with
      | 0 => { p with rssi := r } :: ps
      | i' + 1 => p :: update_nth_layer_point layer i' r ps
    else p :: update_nth_layer_point layer i r ps

/-- RSSI-value loop of MRS1000Parser._parse_rssi_channel: one byte per
value, stopping early at the end of the data; values beyond the
precomputed layer point count are read but dropped. -/
def parse_rssi_values (data : List Nat) (layer num_layer_points : Nat) :
    Nat → Nat → ScanData → Nat → ScanData × Nat
  | 0, _, s, offset => (s, offset)
  | n + 1, i, s, offset =>
    if offset ≥ data.length then (s, offset)
    else
      let r := data.getD offset 0
      let s' :=
        if i < num_layer_points then
          { s with points := update_nth_layer_point layer i r s.points }
        else s
      parse_rssi_values data layer num_layer_points n (i + 1) s' (offset + 1)

/-- MRS1000Parser._parse_rssi_channel. -/
def parse_rssi_channel (data : List Nat) (offset : Nat) (s : ScanData)
    (channel_idx : Nat) : Option (Nat × ScanData) := do
  let o := offset + 5
  let _scale_factor ← readF32 data o
  let _scale_offset ← readF32 data (o + 4)
  -- start angle (4 bytes) and angular step (2 bytes) skipped unread
  let num_points ← readU16 data (o + 14)
  let layer := channel_idx % 4
  let num_layer_points := (s.points.filter (fun p => p.layer = layer)).length
  let r := parse_rssi_values data layer num_layer_points num_points 0 s (o + 16)
  pure (r.2, r.1)

/-- The 16-bit channel loop of _parse_binary_scan_data: `n` channels
remain, `idx` is the current channel index. -/
def parse_channels (data : List Nat) :
    Nat → Nat → Nat → ScanData → Option (Nat × ScanData)
  | 0, _, offset, s => some (offset, s)
  | n + 1, idx, offset, s => do
    let r ← parse_channel data offset s idx
    parse_channels data n (idx + 1) r.1 r.2

/-- The 8-bit channel loop of _parse_binary_scan_data. -/
def parse_rssi_channels (data : List Nat) :
    Nat → Nat → Nat → ScanData → Option (Nat × ScanData)
  | 0, _, offset, s => some (offset, s)
  | n + 1, idx, offset, s => do
    let r ← parse_rssi_channel data offset s idx
    parse_rssi_channels data n (idx + 1) r.1 r.2

/-- MRS1000Parser._parse_binary_scan_data.  Offsets: version/device
number/serial are skipped (8 bytes), device status at 8, telegram count
at 10, scan count at 12, time since startup at 14, time of transmission
skipped, scan frequency at 22 in 1/100 Hz, measurement frequency
skipped, encoder count at 30 followed by 6 bytes per encoder, then the
16-bit channel count.  The ScanData constructor defaults give the
initial angular grid (-137.5, 137.5, 0.25). -/
def parse_binary_scan_data (data : List Nat) : Option ScanData := do
  let device_status ← readU16 data 8
  let telegram_count ← readU16 data 10
  let scan_count ← readU16 data 12
  let timestamp ← readU32 data 14
  let freq_raw ← readU32 data 22
  let num_encoders ← readU16 data 30
  let offset := 32 + num_encoders * 6
  let num_16bit_channels ← readU16 data offset
  let s0 : ScanData :=
    { timestamp := timestamp, scan_number := scan_count,
      telegram_count := telegram_count, device_status := device_status,
      frequency := (freq_raw : ℚ) / 100, points := [],
      start_angle := -(275 / 2), end_angle := 275 / 2,
      angular_resolution := 1 / 4 }
  let r ← parse_channels data num_16bit_channels 0 (offset + 2) s0
  if r.1 < data.length then do
    let num_8bit_channels ← readU16 data r.1
    let r2 ← parse_rssi_channels data num_8bit_channels 0 (r.1 + 2) r.2
    pure r2.2
  else
    pure r.2

/-- ASCII bytes of the scan-data marker "LMDscandata". -/
def LMDmarker : List Nat := [76, 77, 68, 115, 99, 97, 110, 100, 97, 116, 97]

/-- bytes.find(b, start): first index at or after `start` holding `b`. -/
def find_byte_aux (b : Nat) : List Nat → Nat → Option Nat
  | [], _ => none
  | x :: xs, i => if x = b then some i else find_byte_aux b xs (i + 1)

/-- Python payload.find(byte, start). -/
def find_byte_from (data : List Nat) (b start : Nat) : Option Nat :=
  (find_byte_aux b (data.drop start) 0).map (· + start)

/-- Python substring containment `needle in haystack` on byte strings. -/
def bytes_contain (needle : List Nat) : List Nat → Bool
  | [] => needle.isPrefixOf ([] : List Nat)
  | h :: t => needle.isPrefixOf (h :: t) || bytes_contain needle t

/-- MRS1000Parser._parse_scan_data: split off the ASCII command token at
the first space at index >= 4, require the scan-data marker in it, then
parse the binary body. -/
def parse_scan_data (payload : List Nat) : Option ScanData :=
  match find_byte_from payload 32 4 with
  | none => none
  | some space_pos =>
    if bytes_contain LMDmarker (payload.take space_pos) then
      parse_binary_scan_data (payload.drop (space_pos + 1))
    else none

/-- Framer state (MRS1000Parser): the reassembly buffer and the
successful-scan counter. -/
structure FramerState where
  buffer : List Nat
  scan_count : Nat
deriving DecidableEq, Repr

/-- Fresh parser, MRS1000Parser.__init__. -/
def initFramer : FramerState := { buffer := [], scan_count := 0 }

/-- MRS1000Parser._try_parse_telegram on a buffer.  Returns the
checksum-valid payload handed to _parse_scan_data (the framing-level
emission, none when no complete valid telegram was extracted), the
parsed scan, and the remaining buffer.  The source recurses after a
checksum failure, discarding one STX; `fuel` bounds that recursion and
buffer.length + 1 always suffices since each step drops 4 bytes. -/
def try_parse_telegram : Nat → List Nat → Option (List Nat) × Option ScanData × List Nat
  | 0, buffer => (none, none, buffer)
  | fuel + 1, buffer =>
    match findSTX buffer with
    | none => (none, none, [])  -- no STX anywhere: buffer cleared
    | some stx_pos =>
      let b := buffer.drop stx_pos  -- garbage before STX removed
      if b.length < 8 then (none, none, b)
      else
        let payload_length :=
          be32 (b.getD 4 0) (b.getD 5 0) (b.getD 6 0) (b.getD 7 0)
        let total_length := 8 + payload_length + 1
        if b.length < total_length then (none, none, b)
        else
          let payload := (b.drop 8).take payload_length
          let checksum := (b.drop (8 + payload_length)).headD 0  -- b[8+len]
          if payload.foldl Nat.xor 0 = checksum then
            (some payload, parse_scan_data payload, b.drop total_length)
          else
            try_parse_telegram fuel (b.drop 4)

/-- The while-loop of MRS1000Parser.feed: extract telegrams until
_try_parse_telegram yields no scan.  Collects the framing-level payload
emissions and the scans; `fuel` bounds the iteration count and
buffer.length + 1 always suffices since every successful telegram
consumes at least 9 bytes. -/
def feed_loop : Nat → List Nat → List (List Nat) × List ScanData × List Nat
  | 0, buffer => ([], [], buffer)
  | fuel + 1, buffer =>
    match try_parse_telegram (buffer.length + 1) buffer with
    | (po, some s, b') =>
      let r := feed_loop fuel b'
      (po.toList ++ r.1, s :: r.2.1, r.2.2)
    | (po, none, b') => (po.toList, [], b')

/-- MRS1000Parser.feed. -/
def feed (st : FramerState) (data : List Nat) :
    List (List Nat) × List ScanData × FramerState :=
  let buffer := st.buffer ++ data
  let r := feed_loop (buffer.length + 1) buffer
  (r.1, r.2.1, { buffer := r.2.2, scan_count := st.scan_count + r.2.1.length })

/-- Successive feed calls, concatenating the emissions. -/
def feed_many (st : FramerState) :
    List (List Nat) → List (List Nat) × List ScanData × FramerState
  | [] => ([], [], st)
  | d :: ds =>
    let r := feed st d
    let r' := feed_many r.2.2 ds
    (r.1 ++ r'.1, r.2.1 ++ r'.2.1, r'.2.2)

/-- Big-endian length field of a telegram. -/
def be32_bytes (n : Nat) : List Nat :=
  [n / 2 ^ 24 % 256, n / 2 ^ 16 % 256, n / 2 ^ 8 % 256, n % 256]

/-- A well-formed telegram for a payload: STX, big-endian length,
payload, XOR checksum (spec section 4.1). -/
def mk_telegram (payload : List Nat) : List Nat :=
  STXbytes ++ be32_bytes payload.length ++ payload ++ [payload.foldl Nat.xor 0]

/-! ## Modbus register publisher (modbus_server.py) -/

/-- The register/coil store (ModbusDataStore.__init__): 1000 holding
registers and 100 coils, zero-initialised.  Input registers are never
touched by any code path and are omitted. -/
structure ModbusDataStore where
  holding_registers : List Nat
  coils : List Bool
deriving DecidableEq, Repr

/-- Fresh data store. -/
def initDataStore : ModbusDataStore :=
  { holding_registers := List.replicate 1000 0,
    coils := List.replicate 100 false }

/-- ModbusDataStore.set_holding_register: bounds-checked single write. -/
def set_holding_register (store : ModbusDataStore) (address value : Nat) :
    ModbusDataStore :=
  if address < store.holding_registers.length then
    { store with holding_registers := store.holding_registers.set address value }
  else store

/-- Big-endian 16-bit value of two bytes. -/
def be16 (b0 b1 : Nat) : Nat := b0 * 256 + b1

/-- ModbusTCPServer._process_request, function code 0x06 (Write Single
Register), with the callbacks as wired in app.py: the reset-statistics
callback is MeasurementEvaluator.reset_statistics and the set-product
callback is MeasurementEvaluator.set_active_product.  Returns the
evaluator state, the data store and the response body (none when the
request body is short). -/
def process_write_single_register (es : EvaluatorState)
    (store : ModbusDataStore) (data : List Nat) :
    EvaluatorState × ModbusDataStore × Option (List Nat) :=
  if data.length < 4 then (es, store, none)
  else
    let address := be16 (data.getD 0 0) (data.getD 1 0)
    let value := be16 (data.getD 2 0) (data.getD 3 0)
    let es' :=
      if address = 900 then
        if value = 1 then reset_statistics es else es
      else if address = 901 then
        (set_active_product es (value : Int)).2
      else es
    (es', set_holding_register store address value, some (data.take 4))

/-! ## EtherNet/IP input assembly (ethernetip_server.py) -/

/-- Python int() on a rational: truncation toward zero. -/
def pyInt (q : ℚ) : Int := if 0 ≤ q then ⌊q⌋ else ⌈q⌉

/-- The 64-byte input assembly (LIDARInputAssembly). -/
structure LIDARInputAssembly where
  status : Int
  product_id : Int
  overall_result : Int
  zone_count : Int
  scan_counter : Int
  good_count : Int
  bad_count : Int
  good_rate : Int
  zone_measurements : List Int
  zone_results : List Int
  timestamp : Int
  min_distance : Int
  max_distance : Int
deriving DecidableEq, Repr

/-- Dataclass defaults of LIDARInputAssembly. -/
def initInputAssembly : LIDARInputAssembly :=
  { status := 0, product_id := 0, overall_result := 0, zone_count := 0,
    scan_counter := 0, good_count := 0, bad_count := 0, good_rate := 0,
    zone_measurements := [0, 0, 0, 0], zone_results := [0, 0, 0, 0],
    timestamp := 0, min_distance := 0, max_distance := 0 }

/-- Range accepted by struct.pack 'B'. -/
def fitsU8 (v : Int) : Bool := decide (0 ≤ v) && decide (v < 256)

/-- Range accepted by struct.pack 'I'. -/
def fitsU32 (v : Int) : Bool := decide (0 ≤ v) && decide (v < 2 ^ 32)

/-- Little-endian u32 bytes of an in-range value. -/
def u32le (v : Int) : List Nat :=
  [v.toNat % 256, v.toNat / 256 % 256, v.toNat / 2 ^ 16 % 256,
    v.toNat / 2 ^ 24 % 256]

/-- The four leading single-byte fields of the input assembly. -/
def LIDARInputAssembly.headsList (a : LIDARInputAssembly) : List Int :=
  [a.status, a.product_id, a.overall_result, a.zone_count]

/-- Fields of the input assembly in struct.pack order
'<BBBB IIII IIIIIIII III' (the four measurement/result pairs
interleaved), paired with their width. -/
def LIDARInputAssembly.fieldList (a : LIDARInputAssembly) : List Int :=
  [a.scan_counter, a.good_count, a.bad_count, a.good_rate,
    a.zone_measurements.getD 0 0, a.zone_results.getD 0 0,
    a.zone_measurements.getD 1 0, a.zone_results.getD 1 0,
    a.zone_measurements.getD 2 0, a.zone_results.getD 2 0,
    a.zone_measurements.getD 3 0, a.zone_results.getD 3 0,
    a.timestamp, a.min_distance, a.max_distance]

/-- LIDARInputAssembly.to_bytes: struct.pack of the four status bytes
followed by the fifteen little-endian u32 fields; none when any value
is out of range (struct.error). -/
def LIDARInputAssembly.to_bytes (a : LIDARInputAssembly) :
    Option (List Nat) :=
  if a.headsList.all fitsU8 && (a.fieldList).all fitsU32 then
    some (a.headsList.map Int.toNat ++ (a.fieldList.map u32le).flatten)
  else none

/-- In-place overwrite of the first entries of `old` by `new`
(the enumerate loop in update_input_data; `new` is already sliced). -/
def overwrite_prefix : List Int → List Int → List Int
  | old, [] => old
  | [], _ => []
  | _o :: os, n :: ns => n :: overwrite_prefix os ns

/-- Python's `if arg is not None: <assign>` pattern: apply the update
when the optional argument is present. -/
def optSet {α β : Type} (o : Option α) (f : α → β) (d : β) : β :=
  match o with
  | some v => f v
  | none => d

/-- update_input_data, `if status is not None:` step. -/
def upd_status (o : Option Int) (a : LIDARInputAssembly) : LIDARInputAssembly :=
  optSet o (fun v => { a with status := v }) a

/-- update_input_data, product_id step. -/
def upd_product_id (o : Option Int) (a : LIDARInputAssembly) : LIDARInputAssembly :=
  optSet o (fun v => { a with product_id := v }) a

/-- update_input_data, overall_result step. -/
def upd_overall_result (o : Option Int) (a : LIDARInputAssembly) : LIDARInputAssembly :=
  optSet o (fun v => { a with overall_result := v }) a

/-- update_input_data, zone_count step. -/
def upd_zone_count (o : Option Int) (a : LIDARInputAssembly) : LIDARInputAssembly :=
  optSet o (fun v => { a with zone_count := v }) a

/-- update_input_data, scan_counter step. -/
def upd_scan_counter (o : Option Int) (a : LIDARInputAssembly) : LIDARInputAssembly :=
  optSet o (fun v => { a with scan_counter := v }) a

/-- update_input_data, good_count step. -/
def upd_good_count (o : Option Int) (a : LIDARInputAssembly) : LIDARInputAssembly :=
  optSet o (fun v => { a with good_count := v }) a

/-- update_input_data, bad_count step. -/
def upd_bad_count (o : Option Int) (a : LIDARInputAssembly) : LIDARInputAssembly :=
  optSet o (fun v => { a with bad_count := v }) a

/-- update_input_data, good_rate step: stores int(good_rate * 100). -/
def upd_good_rate (o : Option ℚ) (a : LIDARInputAssembly) : LIDARInputAssembly :=
  optSet o (fun r => { a with good_rate := pyInt (r * 100) }) a

/-- update_input_data, zone_measurements step: the first four supplied
values overwrite the stored ones in place. -/
def upd_zone_measurements (o : Option (List Int)) (a : LIDARInputAssembly) :
    LIDARInputAssembly :=
  optSet o (fun zm =>
    { a with zone_measurements := overwrite_prefix a.zone_measurements (zm.take 4) }) a

/-- update_input_data, zone_results step. -/
def upd_zone_results (o : Option (List Int)) (a : LIDARInputAssembly) :
    LIDARInputAssembly :=
  optSet o (fun zr =>
    { a with zone_results := overwrite_prefix a.zone_results (zr.take 4) }) a

/-- update_input_data, min_distance step. -/
def upd_min_distance (o : Option Int) (a : LIDARInputAssembly) : LIDARInputAssembly :=
  optSet o (fun v => { a with min_distance := v }) a

/-- update_input_data, max_distance step. -/
def upd_max_distance (o : Option Int) (a : LIDARInputAssembly) : LIDARInputAssembly :=
  optSet o (fun v => { a with max_distance := v }) a

/-- update_input_data, unconditional timestamp refresh:
int((time.time() - self._start_time) * 1000) & 0xFFFFFFFF. -/
def upd_timestamp (now start_time : ℚ) (a : LIDARInputAssembly) :
    LIDARInputAssembly :=
  { a with timestamp := pyInt ((now - start_time) * 1000) % 2 ^ 32 }

/-- EtherNetIPServer.update_input_data: the optional-argument
assignments in source order, then the timestamp refresh.  `now` and
`start_time` stand for time.time() and self._start_time. -/
def update_input_data (a : LIDARInputAssembly)
    (status product_id overall_result zone_count scan_counter
      good_count bad_count : Option Int)
    (good_rate : Option ℚ)
    (zone_measurements zone_results : Option (List Int))
    (min_distance max_distance : Option Int)
    (now start_time : ℚ) : LIDARInputAssembly :=
  upd_timestamp now start_time
    (upd_max_distance max_distance
      (upd_min_distance min_distance
        (upd_zone_results zone_results
          (upd_zone_measurements zone_measurements
            (upd_good_rate good_rate
              (upd_bad_count bad_count
                (upd_good_count good_count
                  (upd_scan_counter scan_counter
                    (upd_zone_count zone_count
                      (upd_overall_result overall_result
                        (upd_product_id product_id
                          (upd_status status a))))))))))))

/-! ## Helper lemmas -/

/-- The tolerance check of _evaluate_zone: once a statistic value is
computed, GOOD is returned iff it lies inclusively between the bounds. -/
theorem evaluate_zone_statistic_iff (zone : MeasurementZone) (ds : List ℚ)
    (r : MeasurementResult) (v : ℚ)
    (h : evaluate_zone_statistic zone ds = (r, v)) :
    (r = MeasurementResult.GOOD ↔
      zone.expected_distance - zone.tolerance_minus ≤ v ∧
      v ≤ zone.expected_distance + zone.tolerance_plus) := by
  simp only [evaluate_zone_statistic] at h
  split_ifs at h with hb
  · obtain ⟨hr, hv⟩ := Prod.mk.injEq .. ▸ h
    subst hr; subst hv
    simpa using hb
  · obtain ⟨hr, hv⟩ := Prod.mk.injEq .. ▸ h
    subst hr; subst hv
    constructor
    · intro hcon
      exact absurd hcon (by decide)
    · intro hbounds
      exact absurd hbounds hb

/-! ## Claims -/

/-- Zone used in the C4 witness: expected 1 m, tolerances 0.05, mean
statistic, no outlier rejection, one point required. -/
def zoneC4 : MeasurementZone :=
  { id := 1, name := "Z", enabled := true, start_angle := -10, end_angle := 10,
    layers := [0, 1, 2, 3], expected_distance := 1, tolerance_plus := 1 / 20,
    tolerance_minus := 1 / 20, min_valid_distance := 1 / 10,
    max_valid_distance := 10, min_points := 1, use_median := false,
    outlier_rejection := false, outlier_std_factor := 2,
    last_measurement := 0, last_result := MeasurementResult.UNKNOWN,
    last_update_time := 0, point_count := 0 }

/-- C4: for every zone with expected distance E, tolerance_plus P and
tolerance_minus M, and every computed statistic value v that reaches
the tolerance check (the verdict is not NO_TARGET), the verdict is GOOD
iff E - M <= v <= E + P, with both comparisons inclusive. -/
theorem zone_tolerance_inclusive (zone : MeasurementZone)
    (distances : List ℚ) (r : MeasurementResult) (v : ℚ)
    (h : evaluate_zone zone distances = (r, v))
    (hr : r ≠ MeasurementResult.NO_TARGET) :
    (r = MeasurementResult.GOOD ↔
      zone.expected_distance - zone.tolerance_minus ≤ v ∧
      v ≤ zone.expected_distance + zone.tolerance_plus) := by
  simp only [evaluate_zone] at h
  split_ifs at h with h1 h2 h3
  · exact absurd ((Prod.mk.injEq .. ▸ h).1.symm) hr
  · exact absurd ((Prod.mk.injEq .. ▸ h).1.symm) hr
  · exact evaluate_zone_statistic_iff zone _ r v h
  · exact evaluate_zone_statistic_iff zone _ r v h

/-- Witness for C4 at a boundary input: one point at exactly
expected + tolerance_plus = 1.05 m yields GOOD. -/
theorem zone_tolerance_inclusive_witness :
    MeasurementResult.GOOD = MeasurementResult.GOOD ↔
      zoneC4.expected_distance - zoneC4.tolerance_minus ≤ 21 / 20 ∧
      (21 / 20 : ℚ) ≤ zoneC4.expected_distance + zoneC4.tolerance_plus := by
  refine zone_tolerance_inclusive zoneC4 [21 / 20]
    MeasurementResult.GOOD (21 / 20) ?_ (by decide)
  norm_num [evaluate_zone, evaluate_zone_statistic, zone_statistic, zoneC4]

/-- C10: removing the currently active product removes it, returns
true, and the active id becomes the first remaining product id in
insertion order (none when the catalog empties); removing an id not in
the catalog returns false and changes nothing. -/
theorem remove_product_spec (st : EvaluatorState) (pid : Int) :
    ((st.products.any (fun kv => kv.1 = pid)) = true →
      st.active_product_id = some pid →
      (remove_product st pid).1 = true ∧
      (remove_product st pid).2.products =
        st.products.filter (fun kv => ¬ kv.1 = pid) ∧
      (remove_product st pid).2.active_product_id =
        ((st.products.filter (fun kv => ¬ kv.1 = pid)).map Prod.fst).head?) ∧
    ((st.products.any (fun kv => kv.1 = pid)) = false →
      remove_product st pid = (false, st)) := by
  constructor
  · intro hin hact
    simp only [remove_product, save_config, hin, if_true, hact]
    simp
  · intro hout
    simp only [remove_product, hout]
    simp

/-- Product fixture used by catalog witnesses. -/
def productOne : ProductConfig :=
  { id := 1, name := "One", description := "", enabled := true, zones := [],
    last_result := MeasurementResult.UNKNOWN, last_update_time := 0 }

/-- Second product fixture. -/
def productTwo : ProductConfig :=
  { id := 2, name := "Two", description := "", enabled := true, zones := [],
    last_result := MeasurementResult.UNKNOWN, last_update_time := 0 }

/-- Catalog with products 1 and 2, product 1 active. -/
def stTwoProducts : EvaluatorState :=
  { products := [(1, productOne), (2, productTwo)],
    active_product_id := some 1, evaluation_count := 0, good_count := 0,
    bad_count := 0, savedDoc := none }

/-- Witness for C10: removing active product 1 from the two-product
catalog returns true and activates product 2. -/
theorem remove_product_spec_witness :
    ((remove_product stTwoProducts 1).1 = true ∧
      (remove_product stTwoProducts 1).2.products =
        stTwoProducts.products.filter (fun kv => ¬ kv.1 = 1) ∧
      (remove_product stTwoProducts 1).2.active_product_id =
        ((stTwoProducts.products.filter (fun kv => ¬ kv.1 = 1)).map
          Prod.fst).head?) ∧
    remove_product stTwoProducts 3 = (false, stTwoProducts) :=
  ⟨(remove_product_spec stTwoProducts 1).1 (by decide) (by decide),
   (remove_product_spec stTwoProducts 3).2 (by decide)⟩

/-- Fresh evaluator state: empty catalog, no active product, zero
counters, nothing persisted (MeasurementEvaluator.__init__ without an
existing config file). -/
def initEvaluator : EvaluatorState :=
  { products := [], active_product_id := none, evaluation_count := 0,
    good_count := 0, bad_count := 0, savedDoc := none }

/-- Catalog built by two add_product calls: products 1 and 2, product 1
active, and the persisted document is the snapshot taken by the second
add_product (so it records active id 1). -/
def stC7 : EvaluatorState :=
  add_product (add_product initEvaluator productOne) productTwo

/-- Counterexample for C7: set_active_product 2 on the two-product
catalog succeeds and switches the in-memory active id to 2, but the
persisted document still holds active id 1 — the catalog was not saved
before the call returned. -/
theorem set_active_product_counterexample :
    (set_active_product stC7 2).1 = true ∧
    (set_active_product stC7 2).2.active_product_id = some 2 ∧
    (set_active_product stC7 2).2.savedDoc = stC7.savedDoc ∧
    stC7.savedDoc = some (some 1, [(1, productOne), (2, productTwo)]) := by
  refine ⟨rfl, rfl, rfl, rfl⟩

/-- C7 amended: add_product and remove_product save the catalog
synchronously before returning, but a successful set_active_product
changes only the in-memory active id and leaves the persisted document
untouched (the new active id is persisted only by a later saving
mutation). -/
theorem set_active_product_does_not_save (st : EvaluatorState) (pid : Int)
    (h : (st.products.any (fun kv => kv.1 = pid)) = true) :
    set_active_product st pid =
      (true, { st with active_product_id := some pid }) ∧
    (∀ (st' : EvaluatorState) (p : ProductConfig),
      (add_product st' p).savedDoc =
        some ((add_product st' p).active_product_id,
          (add_product st' p).products)) := by
  refine ⟨?_, fun st' p => rfl⟩
  simp only [set_active_product, h, if_true]

/-- Witness for C7's amended theorem at the concrete two-product
catalog. -/
theorem set_active_product_does_not_save_witness :
    set_active_product stC7 2 =
      (true, { stC7 with active_product_id := some 2 }) :=
  (set_active_product_does_not_save stC7 2 (by decide)).1

/-- There is an active product and it is enabled. -/
def active_enabled (st : EvaluatorState) : Prop :=
  ∃ p, get_active_product st = some p ∧ p.enabled = true

/-- Replacing the active entry's value in the catalog: looking the
active key up afterwards yields the replacement. -/
theorem dictGet_replace_active (l : List (Int × ProductConfig)) (i : Int)
    (p' : ProductConfig) (h : (dictGet l i).isSome = true) :
    dictGet (l.map fun kv => if some kv.1 = some i then (kv.1, p') else kv) i
      = some p' := by
  induction l with
  | nil => simp [dictGet] at h
  | cons kv t ih =>
    by_cases hk : kv.1 = i
    · simp [dictGet, hk]
    · have h' : (dictGet t i).isSome = true := by
        simpa [dictGet, List.find?_cons, hk] using h
      simpa [dictGet, List.find?_cons, hk] using ih h'

/-- The per-zone evaluation map applied to a product's zones, the
all-zones-good flag and the updated product, as computed inside
evaluate_scan. -/
def updated_product (pts : List ScanPoint) (now : ℚ) (p : ProductConfig) :
    ProductConfig :=
  let zones' := p.zones.map (evaluate_zone_in_scan pts now)
  let all_good := zones'.all (fun z =>
    !z.enabled || decide (z.last_result = MeasurementResult.GOOD))
  { p with
      zones := zones'
      last_result :=
        if all_good then MeasurementResult.GOOD else MeasurementResult.BAD
      last_update_time := now }

/-- Characterisation of evaluate_scan when an enabled active product is
selected. -/
theorem evaluate_scan_active (st : EvaluatorState) (pts : List ScanPoint)
    (now : ℚ) (p : ProductConfig) (i : Int)
    (hi : st.active_product_id = some i)
    (hg : dictGet st.products i = some p) (hen : p.enabled = true) :
    evaluate_scan st pts now =
      ({ st with
          products := st.products.map (fun kv =>
            if some kv.1 = st.active_product_id then
              (kv.1, updated_product pts now p)
            else kv)
          evaluation_count := st.evaluation_count + 1
          good_count :=
            if (p.zones.map (evaluate_zone_in_scan pts now)).all (fun z =>
                !z.enabled || decide (z.last_result = MeasurementResult.GOOD))
            then st.good_count + 1 else st.good_count
          bad_count :=
            if (p.zones.map (evaluate_zone_in_scan pts now)).all (fun z =>
                !z.enabled || decide (z.last_result = MeasurementResult.GOOD))
            then st.bad_count else st.bad_count + 1 },
       some (updated_product pts now p)) := by
  have hp : get_active_product st = some p := by
    unfold get_active_product
    rw [hi]
    exact hg
  simp only [evaluate_scan, hp, hen, if_true, updated_product]

/-- One evaluate call with an enabled active product: the evaluation
counter goes up by one, exactly one of the good/bad counters goes up by
one, and the active product stays enabled. -/
theorem evaluate_scan_step (st : EvaluatorState) (pts : List ScanPoint)
    (now : ℚ) (h : active_enabled st) :
    (evaluate_scan st pts now).1.evaluation_count = st.evaluation_count + 1 ∧
    (((evaluate_scan st pts now).1.good_count = st.good_count + 1 ∧
      (evaluate_scan st pts now).1.bad_count = st.bad_count) ∨
     ((evaluate_scan st pts now).1.bad_count = st.bad_count + 1 ∧
      (evaluate_scan st pts now).1.good_count = st.good_count)) ∧
    active_enabled (evaluate_scan st pts now).1 := by
  obtain ⟨p, hp, hen⟩ := h
  obtain ⟨i, hi⟩ : ∃ i, st.active_product_id = some i := by
    unfold get_active_product at hp
    cases hact : st.active_product_id with
    | none => rw [hact] at hp; exact absurd hp (by simp)
    | some j => exact ⟨j, rfl⟩
  have hg : dictGet st.products i = some p := by
    unfold get_active_product at hp
    rw [hi] at hp
    exact hp
  rw [evaluate_scan_active st pts now p i hi hg hen]
  refine ⟨rfl, ?_, ?_⟩
  · by_cases hag : (p.zones.map (evaluate_zone_in_scan pts now)).all
      (fun z => !z.enabled || decide (z.last_result = MeasurementResult.GOOD))
    · left
      constructor <;> simp [hag]
    · right
      constructor <;> simp [hag]
  · refine ⟨updated_product pts now p, ?_, hen⟩
    unfold get_active_product
    simp only [hi]
    exact dictGet_replace_active st.products i _ (by simp [hg])

/-- C3: starting from reset statistics with an enabled active product
selected, every evaluate call increments evaluation_count by one and
exactly one of good_count / bad_count by one, and after any finite
sequence of such calls good_count + bad_count = evaluation_count. -/
theorem statistics_counters_invariant (st0 : EvaluatorState)
    (scans : List (List ScanPoint × ℚ))
    (h0 : st0.evaluation_count = 0 ∧ st0.good_count = 0 ∧ st0.bad_count = 0)
    (hact : active_enabled st0) :
    (∀ (st : EvaluatorState) (pts : List ScanPoint) (now : ℚ),
      active_enabled st →
      (evaluate_scan st pts now).1.evaluation_count = st.evaluation_count + 1 ∧
      (((evaluate_scan st pts now).1.good_count = st.good_count + 1 ∧
        (evaluate_scan st pts now).1.bad_count = st.bad_count) ∨
       ((evaluate_scan st pts now).1.bad_count = st.bad_count + 1 ∧
        (evaluate_scan st pts now).1.good_count = st.good_count))) ∧
    (scans.foldl (fun s x => (evaluate_scan s x.1 x.2).1) st0).good_count +
      (scans.foldl (fun s x => (evaluate_scan s x.1 x.2).1) st0).bad_count =
      (scans.foldl (fun s x => (evaluate_scan s x.1 x.2).1) st0).evaluation_count := by
  constructor
  · intro st pts now h
    obtain ⟨h1, h2, _⟩ := evaluate_scan_step st pts now h
    exact ⟨h1, h2⟩
  · have main : ∀ (l : List (List ScanPoint × ℚ)) (st : EvaluatorState),
        active_enabled st →
        st.good_count + st.bad_count = st.evaluation_count →
        (l.foldl (fun s x => (evaluate_scan s x.1 x.2).1) st).good_count +
          (l.foldl (fun s x => (evaluate_scan s x.1 x.2).1) st).bad_count =
          (l.foldl (fun s x => (evaluate_scan s x.1 x.2).1) st).evaluation_count := by
      intro l
      induction l with
      | nil => intro st _ hinv; simpa using hinv
      | cons x t ih =>
        intro st h hinv
        simp only [List.foldl_cons]
        obtain ⟨h1, h2, h3⟩ := evaluate_scan_step st x.1 x.2 h
        refine ih _ h3 ?_
        show (evaluate_scan st x.1 x.2).1.good_count +
            (evaluate_scan st x.1 x.2).1.bad_count =
            (evaluate_scan st x.1 x.2).1.evaluation_count
        rcases h2 with ⟨hg, hb⟩ | ⟨hb, hg⟩ <;> omega
    exact main scans st0 hact (by omega)

/-- Witness for C3: one evaluate call on the two-product catalog with
product 1 (zoneless, hence vacuously GOOD) active. -/
theorem statistics_counters_invariant_witness :
    (([([], (0 : ℚ))] : List (List ScanPoint × ℚ)).foldl
        (fun s x => (evaluate_scan s x.1 x.2).1) stTwoProducts).good_count +
      (([([], (0 : ℚ))] : List (List ScanPoint × ℚ)).foldl
        (fun s x => (evaluate_scan s x.1 x.2).1) stTwoProducts).bad_count =
      (([([], (0 : ℚ))] : List (List ScanPoint × ℚ)).foldl
        (fun s x => (evaluate_scan s x.1 x.2).1) stTwoProducts).evaluation_count :=
  (statistics_counters_invariant stTwoProducts [([], 0)] ⟨rfl, rfl, rfl⟩
    ⟨productOne, rfl, rfl⟩).2

/-- Zone used by C1: mean statistic, outlier rejection on with
std-factor 2, three points required, tolerances 0.05 around 1 m. -/
def zoneC1 : MeasurementZone :=
  { zoneC4 with min_points := 3, outlier_rejection := true }

/-- Counterexample for C1: on distances {1.00, 1.01, 1.02, 5.00} with
std-factor 2 the mean is 2.0075 and the population variance is
2.98506875, so the squared threshold (2 std)^2 = 11.940275 exceeds the
largest squared deviation (5 - 2.0075)^2 = 8.95505625: no point is
rejected (5.00 survives), and the measurement is 2.0075, not 1.01. -/
theorem outlier_rejection_counterexample :
    reject_outliers [1, 101 / 100, 51 / 50, 5] 2 = [1, 101 / 100, 51 / 50, 5] ∧
    evaluate_zone zoneC1 [1, 101 / 100, 51 / 50, 5] =
      (MeasurementResult.BAD, 803 / 400) ∧
    (803 / 400 : ℚ) ≠ 101 / 100 := by
  refine ⟨?_, ?_, by norm_num⟩
  · norm_num [reject_outliers, List.filter]
  · norm_num [evaluate_zone, reject_outliers, evaluate_zone_statistic,
      zone_statistic, zoneC1, zoneC4, List.filter]

/-- C1 amended: with outlier rejection enabled, std-factor 2 and the
mean statistic, the four distances {1.00, 1.01, 1.02, 5.00} all survive
rejection (every deviation from the mean 2.0075 is within two standard
deviations) and the measurement is 2.0075, the mean of all four points
— not the 1.01 mean of the first three. -/
theorem outlier_rejection_amended :
    reject_outliers [1, 101 / 100, 51 / 50, 5] 2 = [1, 101 / 100, 51 / 50, 5] ∧
    evaluate_zone zoneC1 [1, 101 / 100, 51 / 50, 5] =
      (MeasurementResult.BAD, 803 / 400) ∧
    (803 / 400 : ℚ) = (1 + 101 / 100 + 51 / 50 + 5) / 4 := by
  refine ⟨?_, ?_, by norm_num⟩
  · norm_num [reject_outliers, List.filter]
  · norm_num [evaluate_zone, reject_outliers, evaluate_zone_statistic,
      zone_statistic, zoneC1, zoneC4, List.filter]

/-- Evaluator with nonzero counters, used by C8. -/
def esC8 : EvaluatorState :=
  { products := [], active_product_id := none, evaluation_count := 2,
    good_count := 1, bad_count := 1, savedDoc := none }

set_option maxRecDepth 8000 in
/-- Counterexample for C8: writing 1 to holding register 900 (request
body 03 84 00 01) resets the evaluator counters exactly like a direct
reset_statistics call, but afterwards register 900 holds the written
value 1 — it is not cleared — so the register store differs from the
store a direct reset_statistics call (which touches no register)
leaves behind. -/
theorem reset_via_register_counterexample :
    (process_write_single_register esC8 initDataStore [3, 132, 0, 1]).1 =
      reset_statistics esC8 ∧
    (process_write_single_register esC8 initDataStore
        [3, 132, 0, 1]).2.1.holding_registers.getD 900 0 = 1 ∧
    initDataStore.holding_registers.getD 900 0 = 0 ∧
    (process_write_single_register esC8 initDataStore [3, 132, 0, 1]).2.1 ≠
      initDataStore := by
  refine ⟨by decide, by decide, by decide, ?_⟩
  intro hcon
  have := congrArg (fun s => s.holding_registers.getD 900 0) hcon
  simp only at this
  rw [show (process_write_single_register esC8 initDataStore
      [3, 132, 0, 1]).2.1.holding_registers.getD 900 0 = 1 from by decide,
    show initDataStore.holding_registers.getD 900 0 = 0 from by decide] at this
  exact absurd this (by decide)

/-- C8 amended: writing 1 to holding register 900 via function code
0x06 resets the evaluator statistics exactly as a direct
reset_statistics call does and echoes the request, and the data store
is the old store with register 900 set to the written value 1 (the
source stores the value; it does not clear the register). -/
theorem reset_via_register_amended (es : EvaluatorState)
    (store : ModbusDataStore) :
    process_write_single_register es store [3, 132, 0, 1] =
      (reset_statistics es, set_holding_register store 900 1,
        some [3, 132, 0, 1]) := by
  norm_num [process_write_single_register, be16]

/-- Projections commute with the optional-update helper. -/
theorem optSet_proj {α β γ : Type} (o : Option α) (f : α → β) (d : β)
    (g : β → γ) : g (optSet o f d) = optSet o (fun v => g (f v)) (g d) := by
  cases o <;> rfl

/-- An optional update that does not change the projected value. -/
theorem optSet_const {α β : Type} (o : Option α) (c : β) :
    optSet o (fun _ => c) c = c := by
  cases o <;> rfl

/-- optSet on a present argument applies the update. -/
theorem optSet_some {α β : Type} (v : α) (f : α → β) (d : β) :
    optSet (some v) f d = f v := rfl

/-- optSet on an absent argument keeps the default. -/
theorem optSet_none {α β : Type} (f : α → β) (d : β) :
    optSet (none : Option α) f d = d := rfl

/-- The timestamp refresh keeps good_rate. -/
theorem upd_timestamp_good_rate (now start_time : ℚ) (a : LIDARInputAssembly) :
    (upd_timestamp now start_time a).good_rate = a.good_rate := rfl

/-- The max_distance step keeps good_rate. -/
theorem upd_max_distance_good_rate (o : Option Int) (a : LIDARInputAssembly) :
    (upd_max_distance o a).good_rate = a.good_rate := by
  cases o <;> rfl

/-- The min_distance step keeps good_rate. -/
theorem upd_min_distance_good_rate (o : Option Int) (a : LIDARInputAssembly) :
    (upd_min_distance o a).good_rate = a.good_rate := by
  cases o <;> rfl

/-- The zone_results step keeps good_rate. -/
theorem upd_zone_results_good_rate (o : Option (List Int))
    (a : LIDARInputAssembly) :
    (upd_zone_results o a).good_rate = a.good_rate := by
  cases o <;> rfl

/-- The zone_measurements step keeps good_rate. -/
theorem upd_zone_measurements_good_rate (o : Option (List Int))
    (a : LIDARInputAssembly) :
    (upd_zone_measurements o a).good_rate = a.good_rate := by
  cases o <;> rfl

/-- The good-rate step with a supplied rate stores int(rate * 100). -/
theorem upd_good_rate_some (r : ℚ) (a : LIDARInputAssembly) :
    (upd_good_rate (some r) a).good_rate = pyInt (r * 100) := rfl

/-- The stored good_rate field after an update supplying a good-rate:
int(good_rate * 100), whatever the other arguments are. -/
theorem update_input_data_good_rate (a : LIDARInputAssembly)
    (status product_id overall_result zone_count scan_counter
      good_count bad_count : Option Int) (r : ℚ)
    (zone_measurements zone_results : Option (List Int))
    (min_distance max_distance : Option Int) (now start_time : ℚ) :
    (update_input_data a status product_id overall_result zone_count
      scan_counter good_count bad_count (some r) zone_measurements
      zone_results min_distance max_distance now start_time).good_rate =
      pyInt (r * 100) := by
  simp only [update_input_data, upd_timestamp_good_rate,
    upd_max_distance_good_rate, upd_min_distance_good_rate,
    upd_zone_results_good_rate, upd_zone_measurements_good_rate,
    upd_good_rate_some]

/-- Bytes 16..19 of a packed input assembly are the little-endian u32
encoding of its good_rate field. -/
theorem to_bytes_good_rate (a : LIDARInputAssembly) (bs : List Nat)
    (h : a.to_bytes = some bs) :
    (bs.drop 16).take 4 = u32le a.good_rate := by
  unfold LIDARInputAssembly.to_bytes at h
  split_ifs at h with hv
  have hbs : (a.headsList.map Int.toNat ++
      (a.fieldList.map u32le).flatten) = bs := Option.some.inj h
  have hsplit : bs =
      (a.headsList.map
          Int.toNat ++ u32le a.scan_counter ++ u32le a.good_count ++
          u32le a.bad_count) ++
          (u32le a.good_rate ++
            (u32le (a.zone_measurements.getD 0 0) ++
              (u32le (a.zone_results.getD 0 0) ++
                (u32le (a.zone_measurements.getD 1 0) ++
                  (u32le (a.zone_results.getD 1 0) ++
                    (u32le (a.zone_measurements.getD 2 0) ++
                      (u32le (a.zone_results.getD 2 0) ++
                        (u32le (a.zone_measurements.getD 3 0) ++
                          (u32le (a.zone_results.getD 3 0) ++
                          (u32le a.timestamp ++
                            (u32le a.min_distance ++
                              u32le a.max_distance))))))))))) := by
    rw [← hbs]
    simp [LIDARInputAssembly.fieldList, List.append_assoc]
  rw [hsplit]
  rw [show (16 : Nat) =
      (a.headsList.map
          Int.toNat ++ u32le a.scan_counter ++ u32le a.good_count ++
          u32le a.bad_count).length from by
    simp [u32le, LIDARInputAssembly.headsList]]
  rw [List.drop_left]
  rw [show (4 : Nat) = (u32le a.good_rate).length from by simp [u32le]]
  exact List.take_left _ _

/-- C9 amended: after an update of the input assembly with good-rate r,
bytes 16..19 of the packed 64-byte assembly hold the little-endian u32
encoding of int(r * 100) — the whole-percent value, not r scaled by
10000. -/
theorem good_rate_encoding_amended (a : LIDARInputAssembly)
    (status product_id overall_result zone_count scan_counter
      good_count bad_count : Option Int) (r : ℚ)
    (zone_measurements zone_results : Option (List Int))
    (min_distance max_distance : Option Int) (now start_time : ℚ)
    (bs : List Nat)
    (h : (update_input_data a status product_id overall_result zone_count
      scan_counter good_count bad_count (some r) zone_measurements
      zone_results min_distance max_distance now start_time).to_bytes =
      some bs) :
    (bs.drop 16).take 4 = u32le (pyInt (r * 100)) := by
  rw [to_bytes_good_rate _ _ h, update_input_data_good_rate]

/-- Counterexample for C9: an update carrying good-rate 0.985 stores
int(0.985 * 100) = 98, so bytes 16..19 of the packed assembly read
98 00 00 00 — not the little-endian encoding of 9850 that scaling the
rate by 10000 would give. -/
theorem good_rate_encoding_counterexample :
    ((update_input_data initInputAssembly none none none none none none
        none (some (197 / 200)) none none none none 0 0).to_bytes).map
      (fun bs => (bs.drop 16).take 4) = some [98, 0, 0, 0] ∧
    ([98, 0, 0, 0] : List Nat) ≠ u32le 9850 := by
  constructor
  · have h98 : pyInt ((197 / 200 : ℚ) * 100) = 98 := by norm_num [pyInt]
    have h0 : pyInt (0 : ℚ) = 0 := by norm_num [pyInt]
    simp [update_input_data, upd_status, upd_product_id, upd_overall_result,
      upd_zone_count, upd_scan_counter, upd_good_count, upd_bad_count,
      upd_good_rate, upd_zone_measurements, upd_zone_results,
      upd_min_distance, upd_max_distance, upd_timestamp, optSet_some,
      optSet_none, initInputAssembly, h98, h0,
      LIDARInputAssembly.to_bytes, LIDARInputAssembly.headsList,
      LIDARInputAssembly.fieldList, fitsU8, fitsU32, u32le]
  · decide

/-- Witness for C9's amended theorem: the concrete 64-byte assembly
packed after the good-rate 0.985 update. -/
theorem good_rate_encoding_amended_witness :
    (([0, 0, 0, 0, 0, 0, 0, 0, 0, 0, 0, 0, 0, 0, 0, 0,
        98, 0, 0, 0, 0, 0, 0, 0, 0, 0, 0, 0, 0, 0, 0, 0,
        0, 0, 0, 0, 0, 0, 0, 0, 0, 0, 0, 0, 0, 0, 0, 0,
        0, 0, 0, 0, 0, 0, 0, 0, 0, 0, 0, 0, 0, 0, 0, 0] :
      List Nat).drop 16).take 4 = u32le (pyInt ((197 / 200 : ℚ) * 100)) := by
  refine good_rate_encoding_amended initInputAssembly none none none none
    none none none (197 / 200) none none none none 0 0 _ ?_
  have h98 : pyInt ((197 / 200 : ℚ) * 100) = 98 := by norm_num [pyInt]
  have h0 : pyInt (0 : ℚ) = 0 := by norm_num [pyInt]
  simp [update_input_data, upd_status, upd_product_id, upd_overall_result,
    upd_zone_count, upd_scan_counter, upd_good_count, upd_bad_count,
    upd_good_rate, upd_zone_measurements, upd_zone_results,
    upd_min_distance, upd_max_distance, upd_timestamp, optSet_some,
    optSet_none, initInputAssembly, h98, h0,
    LIDARInputAssembly.to_bytes, LIDARInputAssembly.headsList,
    LIDARInputAssembly.fieldList, fitsU8, fitsU32, u32le]

/-- The S1 byte sequence of C6: five garbage bytes 0xAA, a valid
telegram with payload "abc" (XOR checksum 0x60), then STX, LEN=2,
body "ok" and the claimed checksum byte 0x06 — which does not match
XOR("ok") = 0x6F xor 0x6B = 0x04. -/
def s1bytes : List Nat :=
  [170, 170, 170, 170, 170] ++
  [2, 2, 2, 2, 0, 0, 0, 3, 97, 98, 99, 96] ++
  [2, 2, 2, 2, 0, 0, 0, 2, 111, 107, 6]

/-- Counterexample for C6: feeding the stated bytes in one call
produces exactly one framing emission, the payload "abc".  The "ok"
payload is never emitted: the feed loop stops after "abc" fails scan
parsing, and the trailing telegram's checksum byte 0x06 is wrong
anyway. -/
theorem frame_recovery_counterexample :
    (feed initFramer s1bytes).1 = [[97, 98, 99]] ∧
    ¬ ([111, 107] ∈ (feed initFramer s1bytes).1) := by
  decide

/-- C6 amended: the call discards the garbage, validates and consumes
the "abc" telegram (emitting its payload to the payload parser, which
rejects it as non-scan data, stopping the loop), and leaves the "ok"
telegram buffered; a subsequent feed call discards it because its
checksum byte 0x06 differs from XOR("ok") = 0x04, emitting nothing. -/
theorem frame_recovery_amended :
    (feed initFramer s1bytes).1 = [[97, 98, 99]] ∧
    (feed initFramer s1bytes).2.1 = [] ∧
    (feed initFramer s1bytes).2.2.buffer =
      [2, 2, 2, 2, 0, 0, 0, 2, 111, 107, 6] ∧
    (feed (feed initFramer s1bytes).2.2 []).1 = [] ∧
    (feed (feed initFramer s1bytes).2.2 []).2.2.buffer = [] ∧
    ([111, 107].foldl Nat.xor 0) = 4 := by
  decide

/-- A minimal payload that parses as scan data: the command token
"sRA LMDscandata", a space, and a 34-byte all-zero binary body (no
encoders, no 16-bit channels, no 8-bit section). -/
def scanPayloadS : List Nat :=
  [115, 82, 65, 32, 76, 77, 68, 115, 99, 97, 110, 100, 97, 116, 97, 32] ++
  List.replicate 34 0

/-- The well-formed telegram around that payload. -/
def telegramS : List Nat := mk_telegram scanPayloadS

/-- Counterexample for C5: split the stream [02 02] ++ telegramS into
the chunks [02 02] and telegramS.  Fed in two calls, the first call
clears the two lone STX prefix bytes (no complete STX in the buffer)
and the second call emits the telegram's payload and scan.  Fed as one
concatenated call, the leading six 0x02 bytes make the length field
read 0x02020000, so the framer waits for a gigantic telegram and emits
nothing.  The split emissions are not a subset of the single-call
emissions, at the payload level and at the scan level. -/
theorem split_subset_counterexample :
    scanPayloadS ∈ (feed_many initFramer [[2, 2], telegramS]).1 ∧
    scanPayloadS ∉ (feed initFramer ([2, 2] ++ telegramS)).1 ∧
    (feed_many initFramer [[2, 2], telegramS]).2.1.length = 1 ∧
    (feed initFramer ([2, 2] ++ telegramS)).2.1 = [] := by
  decide

/-- Decoding the big-endian length field written by mk_telegram gives
the payload length back. -/
theorem be32_be32_bytes (n : Nat) (h : n < 2 ^ 32) :
    be32 (n / 2 ^ 24 % 256) (n / 2 ^ 16 % 256) (n / 2 ^ 8 % 256) (n % 256)
      = n := by
  unfold be32
  omega

/-- A well-formed telegram is 9 bytes of framing plus the payload. -/
theorem mk_telegram_length (P : List Nat) :
    (mk_telegram P).length = 9 + P.length := by
  simp [mk_telegram, STXbytes, be32_bytes]
  omega

/-- A concatenation of telegrams has at least one byte per telegram. -/
theorem flatten_telegrams_length (Ts : List (List Nat)) :
    Ts.length ≤ ((Ts.map mk_telegram).flatten).length := by
  induction Ts with
  | nil => simp
  | cons P t ih =>
    simp only [List.map_cons, List.flatten_cons, List.length_append,
      List.length_cons, mk_telegram_length]
    omega

/-- _try_parse_telegram on a buffer beginning with a well-formed
telegram: the telegram is consumed in one step, its payload is emitted
and handed to the scan parser, and the rest of the buffer remains. -/
theorem try_parse_telegram_valid (P rest : List Nat) (fuel : Nat)
    (h : P.length < 2 ^ 32) :
    try_parse_telegram (fuel + 1) (mk_telegram P ++ rest) =
      (some P, parse_scan_data P, rest) := by
  have hshape : mk_telegram P ++ rest =
      2 :: 2 :: 2 :: 2 :: (P.length / 2 ^ 24 % 256) ::
      (P.length / 2 ^ 16 % 256) :: (P.length / 2 ^ 8 % 256) ::
      (P.length % 256) :: (P ++ P.foldl Nat.xor 0 :: rest) := by
    simp [mk_telegram, STXbytes, be32_bytes]
  rw [hshape]
  have hfind : findSTX (2 :: 2 :: 2 :: 2 :: (P.length / 2 ^ 24 % 256) ::
      (P.length / 2 ^ 16 % 256) :: (P.length / 2 ^ 8 % 256) ::
      (P.length % 256) :: (P ++ P.foldl Nat.xor 0 :: rest)) = some 0 := rfl
  simp only [try_parse_telegram, hfind, List.drop_zero]
  have hlen : (2 :: 2 :: 2 :: 2 :: (P.length / 2 ^ 24 % 256) ::
      (P.length / 2 ^ 16 % 256) :: (P.length / 2 ^ 8 % 256) ::
      (P.length % 256) :: (P ++ P.foldl Nat.xor 0 :: rest)).length =
      9 + P.length + rest.length := by
    simp
    omega
  have hL : be32 ((2 : Nat) :: 2 :: 2 :: 2 :: (P.length / 2 ^ 24 % 256) ::
        (P.length / 2 ^ 16 % 256) :: (P.length / 2 ^ 8 % 256) ::
        (P.length % 256) :: (P ++ P.foldl Nat.xor 0 :: rest) |>.getD 4 0)
      ((2 : Nat) :: 2 :: 2 :: 2 :: (P.length / 2 ^ 24 % 256) ::
        (P.length / 2 ^ 16 % 256) :: (P.length / 2 ^ 8 % 256) ::
        (P.length % 256) :: (P ++ P.foldl Nat.xor 0 :: rest) |>.getD 5 0)
      ((2 : Nat) :: 2 :: 2 :: 2 :: (P.length / 2 ^ 24 % 256) ::
        (P.length / 2 ^ 16 % 256) :: (P.length / 2 ^ 8 % 256) ::
        (P.length % 256) :: (P ++ P.foldl Nat.xor 0 :: rest) |>.getD 6 0)
      ((2 : Nat) :: 2 :: 2 :: 2 :: (P.length / 2 ^ 24 % 256) ::
        (P.length / 2 ^ 16 % 256) :: (P.length / 2 ^ 8 % 256) ::
        (P.length % 256) :: (P ++ P.foldl Nat.xor 0 :: rest) |>.getD 7 0) =
      P.length :=
    be32_be32_bytes P.length h
  rw [hL]
  rw [if_neg (by rw [hlen]; omega)]
  rw [if_neg (by rw [hlen]; omega)]
  have hdrop8 : ((2 : Nat) :: 2 :: 2 :: 2 :: (P.length / 2 ^ 24 % 256) ::
      (P.length / 2 ^ 16 % 256) :: (P.length / 2 ^ 8 % 256) ::
      (P.length % 256) :: (P ++ P.foldl Nat.xor 0 :: rest)).drop 8 =
      P ++ P.foldl Nat.xor 0 :: rest := rfl
  rw [hdrop8, List.take_left]
  have hdropChk : ((2 : Nat) :: 2 :: 2 :: 2 :: (P.length / 2 ^ 24 % 256) ::
      (P.length / 2 ^ 16 % 256) :: (P.length / 2 ^ 8 % 256) ::
      (P.length % 256) :: (P ++ P.foldl Nat.xor 0 :: rest)).drop
        (8 + P.length) = P.foldl Nat.xor 0 :: rest := by
    rw [show (2 : Nat) :: 2 :: 2 :: 2 :: (P.length / 2 ^ 24 % 256) ::
        (P.length / 2 ^ 16 % 256) :: (P.length / 2 ^ 8 % 256) ::
        (P.length % 256) :: (P ++ P.foldl Nat.xor 0 :: rest) =
      ([2, 2, 2, 2, P.length / 2 ^ 24 % 256, P.length / 2 ^ 16 % 256,
        P.length / 2 ^ 8 % 256, P.length % 256] ++ P) ++
        (P.foldl Nat.xor 0 :: rest) from by simp]
    rw [show 8 + P.length = ([2, 2, 2, 2, P.length / 2 ^ 24 % 256,
      P.length / 2 ^ 16 % 256, P.length / 2 ^ 8 % 256,
      P.length % 256] ++ P).length from by simp; omega]
    exact List.drop_left _ _
  rw [hdropChk]
  simp only [List.headD_cons]
  rw [if_true]
  have hdropAll : ((2 : Nat) :: 2 :: 2 :: 2 :: (P.length / 2 ^ 24 % 256) ::
      (P.length / 2 ^ 16 % 256) :: (P.length / 2 ^ 8 % 256) ::
      (P.length % 256) :: (P ++ P.foldl Nat.xor 0 :: rest)).drop
        (8 + P.length + 1) = rest := by
    rw [show (2 : Nat) :: 2 :: 2 :: 2 :: (P.length / 2 ^ 24 % 256) ::
        (P.length / 2 ^ 16 % 256) :: (P.length / 2 ^ 8 % 256) ::
        (P.length % 256) :: (P ++ P.foldl Nat.xor 0 :: rest) =
      (([2, 2, 2, 2, P.length / 2 ^ 24 % 256, P.length / 2 ^ 16 % 256,
        P.length / 2 ^ 8 % 256, P.length % 256] ++ P) ++
        [P.foldl Nat.xor 0]) ++ rest from by simp]
    rw [show 8 + P.length + 1 = (([2, 2, 2, 2, P.length / 2 ^ 24 % 256,
      P.length / 2 ^ 16 % 256, P.length / 2 ^ 8 % 256,
      P.length % 256] ++ P) ++ [P.foldl Nat.xor 0]).length from by
      simp; omega]
    exact List.drop_left _ _
  rw [hdropAll]

/-- The feed loop over a concatenation of well-formed telegrams whose
payloads all parse as scan data: every telegram is extracted, every
payload emitted and every scan produced, leaving an empty buffer. -/
theorem feed_loop_telegrams (Ts : List (List Nat)) : ∀ (fuel : Nat),
    Ts.length < fuel →
    (∀ P ∈ Ts, P.length < 2 ^ 32 ∧ (parse_scan_data P).isSome = true) →
    feed_loop fuel ((Ts.map mk_telegram).flatten) =
      (Ts, Ts.filterMap parse_scan_data, []) := by
  induction Ts with
  | nil =>
    intro fuel hf _
    cases fuel with
    | zero => omega
    | succ f => rfl
  | cons P t ih =>
    intro fuel hf hall
    cases fuel with
    | zero => omega
    | succ f =>
      have hP := hall P (by simp)
      obtain ⟨s, hs⟩ := Option.isSome_iff_exists.mp hP.2
      simp only [List.map_cons, List.flatten_cons]
      simp only [feed_loop]
      rw [try_parse_telegram_valid P _ _ hP.1, hs]
      simp only []
      rw [ih f (by simpa using Nat.lt_of_succ_lt_succ hf)
        (fun Q hQ => hall Q (by simp [hQ]))]
      simp [List.filterMap_cons, hs]

/-- One feed call on an empty buffer with a concatenation of
well-formed scan telegrams: all payloads and scans are emitted and the
buffer ends empty. -/
theorem feed_telegrams (Ts : List (List Nat)) (sc : Nat)
    (hall : ∀ P ∈ Ts, P.length < 2 ^ 32 ∧ (parse_scan_data P).isSome = true) :
    feed { buffer := [], scan_count := sc } ((Ts.map mk_telegram).flatten) =
      (Ts, Ts.filterMap parse_scan_data,
        { buffer := [],
          scan_count := sc + (Ts.filterMap parse_scan_data).length }) := by
  simp only [feed, List.nil_append]
  rw [feed_loop_telegrams Ts _
    (by have := flatten_telegrams_length Ts; omega) hall]

/-- Successive feed calls on telegram-aligned chunks: the emissions are
the concatenation of the per-chunk emissions and the buffer stays
empty between calls. -/
theorem feed_many_telegrams (groups : List (List (List Nat))) : ∀ (sc : Nat),
    (∀ P ∈ groups.flatten, P.length < 2 ^ 32 ∧
      (parse_scan_data P).isSome = true) →
    feed_many { buffer := [], scan_count := sc }
        (groups.map (fun g => (g.map mk_telegram).flatten)) =
      (groups.flatten, groups.flatten.filterMap parse_scan_data,
        { buffer := [],
          scan_count :=
            sc + (groups.flatten.filterMap parse_scan_data).length }) := by
  induction groups with
  | nil => intro sc _; simp [feed_many]
  | cons g gs ih =>
    intro sc hall
    simp only [List.map_cons, feed_many]
    rw [feed_telegrams g sc (fun P hP => hall P (by simp [hP]))]
    rw [ih _ (fun P hP => hall P (by simp [hP]))]
    simp only [List.flatten_cons, List.filterMap_append, List.length_append]
    refine congrArg _ (congrArg _ ?_)
    refine congrArg _ ?_
    omega

/-- C5 amended: for a stream that is a concatenation of well-formed
telegrams whose payloads parse as scan data, and any split of the
stream at telegram boundaries, feeding the chunks in successive calls
emits exactly the same payloads and the same scans as feeding the
whole concatenated stream in one call (in particular the split
emissions are a subset of the single-call emissions): both equal the
full list of payloads and their parsed scans. -/
theorem split_boundary_independence (groups : List (List (List Nat)))
    (hall : ∀ P ∈ groups.flatten, P.length < 2 ^ 32 ∧
      (parse_scan_data P).isSome = true) :
    (feed_many initFramer
        (groups.map (fun g => (g.map mk_telegram).flatten))).1 =
      (feed initFramer ((groups.flatten.map mk_telegram)).flatten).1 ∧
    (feed_many initFramer
        (groups.map (fun g => (g.map mk_telegram).flatten))).2.1 =
      (feed initFramer ((groups.flatten.map mk_telegram)).flatten).2.1 ∧
    (feed_many initFramer
        (groups.map (fun g => (g.map mk_telegram).flatten))).1 =
      groups.flatten ∧
    (feed_many initFramer
        (groups.map (fun g => (g.map mk_telegram).flatten))).2.1 =
      groups.flatten.filterMap parse_scan_data := by
  have h1 := feed_many_telegrams groups 0 hall
  have h2 := feed_telegrams groups.flatten 0 hall
  rw [show initFramer = { buffer := [], scan_count := 0 } from rfl, h1, h2]
  exact ⟨rfl, rfl, rfl, rfl⟩

/-- Witness for C5's amended theorem: one group holding the single
minimal scan telegram, split as one chunk. -/
theorem split_boundary_independence_witness :
    (feed_many initFramer
        ([[scanPayloadS]].map (fun g => (g.map mk_telegram).flatten))).1 =
      (feed initFramer
        (([[scanPayloadS]].flatten.map mk_telegram)).flatten).1 ∧
    (feed_many initFramer
        ([[scanPayloadS]].map (fun g => (g.map mk_telegram).flatten))).2.1 =
      (feed initFramer
        (([[scanPayloadS]].flatten.map mk_telegram)).flatten).2.1 ∧
    (feed_many initFramer
        ([[scanPayloadS]].map (fun g => (g.map mk_telegram).flatten))).1 =
      [[scanPayloadS]].flatten ∧
    (feed_many initFramer
        ([[scanPayloadS]].map (fun g => (g.map mk_telegram).flatten))).2.1 =
      [[scanPayloadS]].flatten.filterMap parse_scan_data :=
  split_boundary_independence [[scanPayloadS]]
    (by intro P hP; simp at hP; subst hP; exact ⟨by decide, by decide⟩)

/-- C2 amended: _parse_channel populates the scan's angular-grid fields
from the channel it is currently parsing, unconditionally overwriting
whatever they held — so when several 16-bit channels disagree, the LAST
parsed channel wins, not the first.  The resulting grid is a function
of the channel's own header bytes alone (start angle raw i32 at
offset + 13, angular step raw u16 at offset + 17, point count u16 at
offset + 19), independent of the incoming scan's grid fields. -/
theorem parse_channel_sets_grid (data : List Nat) (offset : Nat)
    (s : ScanData) (channel_idx : Nat) (r : Nat × ScanData)
    (start_raw : Int) (step_raw num_points : Nat)
    (h : parse_channel data offset s channel_idx = some r)
    (h3 : readI32 data (offset + 13) = some start_raw)
    (h4 : readU16 data (offset + 17) = some step_raw)
    (h5 : readU16 data (offset + 19) = some num_points) :
    r.2.start_angle = (start_raw : ℚ) / 10000 ∧
    r.2.angular_resolution = (step_raw : ℚ) / 10000 ∧
    r.2.end_angle = (start_raw : ℚ) / 10000 +
      ((num_points : ℚ) - 1) * ((step_raw : ℚ) / 10000) := by
  simp only [parse_channel] at h
  rw [show offset + 5 + 4 = offset + 9 from by omega,
    show offset + 5 + 8 = offset + 13 from by omega,
    show offset + 5 + 12 = offset + 17 from by omega,
    show offset + 5 + 14 = offset + 19 from by omega] at h
  cases h1 : readF32 data (offset + 5) with
  | none => rw [h1] at h; simp at h
  | some scale_factor =>
    rw [h1] at h
    cases h2 : readF32 data (offset + 9) with
    | none => rw [h2] at h; simp at h
    | some scale_offset =>
      rw [h2, h3, h4, h5] at h
      injection h with h'
      subst h'
      exact ⟨rfl, rfl, rfl⟩

/-- One 16-bit channel block: five content bytes, zero scale factor and
offset, start angle 10000 (1 degree), step 2500 (0.25 degree), zero
points. -/
def chanBytes1 : List Nat :=
  [0, 0, 0, 0, 0, 0, 0, 0, 0, 0, 0, 0, 0, 0, 0, 39, 16, 9, 196, 0, 0]

/-- A second channel block disagreeing with the first: start angle
20000 (2 degrees), step 5000 (0.5 degree), zero points. -/
def chanBytes2 : List Nat :=
  [0, 0, 0, 0, 0, 0, 0, 0, 0, 0, 0, 0, 0, 0, 0, 78, 32, 19, 136, 0, 0]

/-- A scan-data payload with two disagreeing 16-bit channels: command
token, space, 32-byte zero header, channel count 2, then the two
channel blocks. -/
def payloadC2 : List Nat :=
  [115, 82, 65, 32, 76, 77, 68, 115, 99, 97, 110, 100, 97, 116, 97, 32] ++
  (List.replicate 32 0 ++ [0, 2]) ++ chanBytes1 ++ chanBytes2

/-- The scan produced from payloadC2: its grid fields come from the
second (last) channel. -/
def scanC2 : ScanData :=
  { timestamp := 0, scan_number := 0, telegram_count := 0,
    device_status := 0, frequency := ((0 : Nat) : ℚ) / 100, points := [],
    start_angle := ((20000 : Int) : ℚ) / 10000,
    angular_resolution := ((5000 : Nat) : ℚ) / 10000,
    end_angle := ((20000 : Int) : ℚ) / 10000 +
      (((0 : Nat) : ℚ) - 1) * (((5000 : Nat) : ℚ) / 10000) }

/-- Counterexample for C2: parsing the two-channel payload yields the
grid of the SECOND channel (start 2, step 0.5, end 1.5), not the first
channel's start 1 — the first channel does not win. -/
theorem first_channel_wins_counterexample :
    parse_scan_data payloadC2 = some scanC2 ∧
    scanC2.start_angle = 2 ∧
    scanC2.angular_resolution = 1 / 2 ∧
    scanC2.end_angle = 3 / 2 ∧
    ¬ (scanC2.start_angle = 1) := by
  refine ⟨rfl, by norm_num [scanC2], by norm_num [scanC2],
    by norm_num [scanC2], by norm_num [scanC2]⟩

/-- Witness for C2's amended theorem: the second channel block of
payloadC2, parsed at its offset 55 in the binary body, sets the grid
fields to its own raw values (start 20000, step 5000, zero points). -/
theorem parse_channel_sets_grid_witness :
    ((76, scanC2) : Nat × ScanData).2.start_angle =
      ((20000 : Int) : ℚ) / 10000 ∧
    ((76, scanC2) : Nat × ScanData).2.angular_resolution =
      ((5000 : Nat) : ℚ) / 10000 ∧
    ((76, scanC2) : Nat × ScanData).2.end_angle =
      ((20000 : Int) : ℚ) / 10000 +
      (((0 : Nat) : ℚ) - 1) * (((5000 : Nat) : ℚ) / 10000) :=
  parse_channel_sets_grid (payloadC2.drop 16) 55 scanC2 1 (76, scanC2)
    20000 5000 0 rfl (by decide) (by decide) (by decide)

end NKB
